import Mathlib

/-!
Verification development for the pharma digital-twin repository.

The definitions below are a shallow embedding, over `ℚ`, of the synthetic-data
generator (`backend/utils/synthetic_data.py`) and of the scoring columns of the
Delta Live Tables pipeline (`databricks/02_dlt_workflows/pharma_manufacturing_dlt.py`).

Modelling conventions:
* Python floats are modelled as rationals; `round(x, d)` is modelled by
  `roundTo d` (round-half-to-even, as in Python/NumPy), `int(x)` by `truncQ`.
* Every pseudo-random draw (`np.random.normal`, `np.random.randint`,
  `random.random`, `random.uniform`, `np.random.beta`) becomes an explicit
  input: a `StepNoise` / `AlertNoise` record per generated row.  A fixed seed
  corresponds to a fixed stream of such records.
* `datetime.now()` becomes an explicit `now : ℚ` parameter (minutes on a
  linear clock); `timedelta(minutes = m)` is subtraction of `m`.
  ISO-8601 strings of such datetimes compare lexicographically exactly as the
  underlying instants compare, so timestamps are kept as rationals.
* Python's `//` on integers is `Int.fdiv` (floor division); `hours*60 // 0`
  raises `ZeroDivisionError`, which `run_generate_bioreactor` models with
  `Except.error`.
-/

namespace PharmaTwin

/-- Growth phases of the simulated culture (`synthetic_data.py`, lines 41-53). -/
inductive Phase
  | lag
  | exponential
  | stationary
  | death
deriving DecidableEq, Repr

/-- Phase branch ladder of `generate_bioreactor_timeseries`
(`synthetic_data.py` lines 41-53): the `phase` assigned to
`growth_phase_hours`. -/
def classifyPhase (growth_phase_hours : ℚ) : Phase :=
  if growth_phase_hours < 24 then Phase.lag
  else if growth_phase_hours < 96 then Phase.exponential
  else if growth_phase_hours < 144 then Phase.stationary
  else Phase.death

/-- Growth-factor branch ladder of `generate_bioreactor_timeseries`
(`synthetic_data.py` lines 41-53); same branches as `classifyPhase`.
Note the death branch is `1.0 - ((g - 144) / 24) * 0.3`, with no clamping. -/
def growthFactor (growth_phase_hours : ℚ) : ℚ :=
  if growth_phase_hours < 24 then 1/10
  else if growth_phase_hours < 96 then (growth_phase_hours - 24) / 72
  else if growth_phase_hours < 144 then 1
  else 1 - ((growth_phase_hours - 144) / 24) * (3/10)

/-- Round a rational to the nearest integer, ties to even: the rounding used
by Python's `round` and NumPy. -/
def roundHalfEven (x : ℚ) : ℤ :=
  let f := Int.floor x
  let r := x - f
  if r < 1/2 then f
  else if 1/2 < r then f + 1
  else if f % 2 = 0 then f
  else f + 1

/-- Python's `round(x, d)` on rationals. -/
def roundTo (d : ℕ) (x : ℚ) : ℚ :=
  (roundHalfEven (x * 10 ^ d) : ℚ) / 10 ^ d

/-- Python's `int(x)`: truncation toward zero. -/
def truncQ (x : ℚ) : ℤ :=
  if 0 ≤ x then Int.floor x else Int.ceil x

/-- The pseudo-random draws consumed by one loop iteration of
`generate_bioreactor_timeseries`: the N(0,σ) draws for each sensor, the
agitation jitter `np.random.randint(-3, 3)`, and the three anomaly draws
(`random.random()` twice, then `random.uniform`). -/
structure StepNoise where
  eT : ℚ
  eP : ℚ
  eD : ℚ
  rpmJ : ℤ
  ePr : ℚ
  eCd : ℚ
  eVc : ℚ
  eG : ℚ
  eL : ℚ
  roll : ℚ
  branch : ℚ
  mag : ℚ
deriving DecidableEq, Repr

/-- One row appended by `generate_bioreactor_timeseries`
(`synthetic_data.py` lines 77-89). -/
structure SensorSample where
  timestamp : ℚ
  bioreactor_id : String
  temperature : ℚ
  ph : ℚ
  dissolved_oxygen : ℚ
  agitation_rpm : ℤ
  pressure : ℚ
  cell_density : ℚ
  viable_cell_count : ℤ
  glucose : ℚ
  lactate : ℚ
  phase : Phase
deriving DecidableEq, Repr

/-- Forget the timestamp field (used to compare samples field-for-field on
every field except the wall-clock-derived timestamp). -/
def eraseTs (s : SensorSample) : SensorSample :=
  { s with timestamp := 0 }

/-- The body of the loop of `generate_bioreactor_timeseries`
(`synthetic_data.py` lines 38-89) for index `i` with draws `ν`:
`growth_phase_hours = i * interval_minutes / 60`, phase and growth factor by
the branch ladder, then the sensor formulas, the optional anomaly excursion
(temperature if the second draw is below 1/2, otherwise pH), and the final
rounding/clamping applied when the row dict is built.  The timestamp of row
`i` is `now - interval_minutes * (num_points - i)` minutes. -/
def genSample (bioreactor_id : String) (interval_minutes : ℤ) (now : ℚ)
    (num_points : ℤ) (add_anomalies : Bool) (i : ℕ) (ν : StepNoise) :
    SensorSample :=
  let growth_phase_hours : ℚ := (i : ℚ) * (interval_minutes : ℚ) / 60
  let gf := growthFactor growth_phase_hours
  let temperature := 37 + ν.eT
  let ph := 7 + ν.eP - gf * (1/10)
  let dissolved_oxygen := 45 + ν.eD - gf * 5
  let agitation_rpm := 120 + ν.rpmJ
  let pressure := 6/5 + ν.ePr
  let cell_density := gf * (9/2) + ν.eCd
  let viable_cell_count := gf * 12000000 + ν.eVc
  let glucose := 10 - gf * (17/2) + ν.eG
  let lactate := gf * (16/5) + ν.eL
  let temperature2 :=
    if add_anomalies = true ∧ ν.roll < 1/100 ∧ ν.branch < 1/2 then
      temperature + ν.mag
    else temperature
  let ph2 :=
    if add_anomalies = true ∧ ν.roll < 1/100 ∧ ¬ ν.branch < 1/2 then
      ph + ν.mag
    else ph
  { timestamp := now - (interval_minutes : ℚ) * ((num_points : ℚ) - (i : ℚ)),
    bioreactor_id := bioreactor_id,
    temperature := roundTo 2 temperature2,
    ph := roundTo 2 ph2,
    dissolved_oxygen := roundTo 1 dissolved_oxygen,
    agitation_rpm := agitation_rpm,
    pressure := roundTo 3 pressure,
    cell_density := roundTo 2 (max 0 cell_density),
    viable_cell_count := truncQ (max 0 viable_cell_count),
    glucose := roundTo 2 (max 0 glucose),
    lactate := roundTo 2 (max 0 lactate),
    phase := classifyPhase growth_phase_hours }

/-- `PharmaDataGenerator.generate_bioreactor_timeseries`
(`synthetic_data.py` lines 23-91): `num_points = (hours * 60) // interval`,
one `SensorSample` per index of `range(num_points)`.  `now` is the wall clock
at the call and `noise` the stream of pseudo-random draws, one `StepNoise`
per row, in program order. -/
def generate_bioreactor_timeseries (bioreactor_id : String)
    (hours interval_minutes : ℤ) (add_anomalies : Bool) (now : ℚ)
    (noise : ℕ → StepNoise) : List SensorSample :=
  let num_points := Int.fdiv (hours * 60) interval_minutes
  (List.range num_points.toNat).map
    (fun i => genSample bioreactor_id interval_minutes now num_points
      add_anomalies i (noise i))

/-- Calling `generate_bioreactor_timeseries` as Python executes it:
`(hours * 60) // interval_minutes` raises `ZeroDivisionError` when
`interval_minutes = 0`; every other input returns normally.  There is no
`InvalidRequest` validation anywhere in the function. -/
def run_generate_bioreactor (bioreactor_id : String)
    (hours interval_minutes : ℤ) (add_anomalies : Bool) (now : ℚ)
    (noise : ℕ → StepNoise) : Except String (List SensorSample) :=
  if interval_minutes = 0 then Except.error "ZeroDivisionError"
  else Except.ok (generate_bioreactor_timeseries bioreactor_id hours
    interval_minutes add_anomalies now noise)

/-- A draw record with every draw equal to zero. -/
def zeroStep : StepNoise :=
  { eT := 0, eP := 0, eD := 0, rpmJ := 0, ePr := 0, eCd := 0, eVc := 0,
    eG := 0, eL := 0, roll := 0, branch := 0, mag := 0 }

/-- The all-zero draw stream. -/
def zeroNoise : ℕ → StepNoise := fun _ => zeroStep

/-- Bounds satisfied by realistic draws: the N(0,0.05)/N(0,0.02)/N(0,2) draws
within 40σ/50σ/4σ of their means, a nonnegative anomaly magnitude, and the
anomaly magnitude within the range of the uniform distribution the code uses
on each branch (`uniform(0.5, 1.0)` for temperature, `uniform(0.3, 0.5)` for
pH). -/
def NoiseOK (ν : StepNoise) : Prop :=
  |ν.eT| ≤ 2 ∧ |ν.eP| ≤ 1 ∧ |ν.eD| ≤ 8 ∧ 0 ≤ ν.mag ∧
    (ν.branch < 1/2 → ν.mag ≤ 1) ∧ (¬ ν.branch < 1/2 → ν.mag ≤ 1/2)

/-- The `contamination_risk_score` column of `gold_contamination_risk`
(`pharma_manufacturing_dlt.py` lines 277-300):
`ph_instability * 2 + temp_instability * 5 + (0.3 if avg_do < 40 else 0.05)`. -/
def contamination_risk_score (ph_instability temp_instability avg_do : ℚ) : ℚ :=
  ph_instability * 2 + temp_instability * 5 +
    (if avg_do < 40 then 3/10 else 1/20)

/-- The `risk_level` column of `gold_contamination_risk`: bucketed on
`ph_instability * 2 + temp_instability * 5` alone (the dissolved-oxygen term
is not part of the bucketing expression). -/
def risk_level (ph_instability temp_instability : ℚ) : String :=
  if 1/2 < ph_instability * 2 + temp_instability * 5 then "High"
  else if 1/5 < ph_instability * 2 + temp_instability * 5 then "Medium"
  else "Low"

/-- Modelled from the spec (§4.4): the contamination risk formula as the
specification words it, `2×stddev(ph) + 5×stddev(temperature) +
(0.3 if mean(DO) < 40 else 0.05)`; compared against the code's
`contamination_risk_score`. -/
def spec_contamination_risk (std_ph std_temp mean_do : ℚ) : ℚ :=
  2 * std_ph + 5 * std_temp + (if mean_do < 40 then 3/10 else 1/20)

/-- Status ladder of `generate_contamination_alerts`
(`synthetic_data.py` lines 226-233): thresholds 0.3 and 0.7 on the sampled
(unrounded) risk score. -/
def alertStatus (risk_score : ℚ) : String :=
  if risk_score < 3/10 then "Low"
  else if risk_score < 7/10 then "Medium"
  else "High"

/-- Action ladder of `generate_contamination_alerts`, same branches as
`alertStatus`. -/
def alertAction (risk_score : ℚ) : String :=
  if risk_score < 3/10 then "Monitor"
  else if risk_score < 7/10 then "Investigate"
  else "Immediate Action"

/-- The pseudo-random draws consumed per alert: the `np.random.beta(2, 5)`
risk draw and the `random.randint(1, 72)` hours-ago draw.  The bioreactor,
alert-type and confidence draws only fill fields no claim mentions and are
omitted. -/
structure AlertNoise where
  beta : ℚ
  hoursAgo : ℤ
deriving DecidableEq, Repr

/-- One record appended by `generate_contamination_alerts`
(`synthetic_data.py` lines 235-250); the fields no claim mentions
(bioreactor, alert_type, confidence, model_version) are omitted. -/
structure Alert where
  alert_id : ℕ
  timestamp : ℚ
  risk_score : ℚ
  status : String
  action : String
deriving DecidableEq, Repr

/-- Build alert number `i` (0-based loop index) at wall clock `now`:
timestamp `now - 60 * hoursAgo` minutes, stored risk rounded to 2 decimals,
status/action from the unrounded draw. -/
def mkAlert (now : ℚ) (i : ℕ) (ν : AlertNoise) : Alert :=
  { alert_id := i + 1,
    timestamp := now - 60 * (ν.hoursAgo : ℚ),
    risk_score := roundTo 2 ν.beta,
    status := alertStatus ν.beta,
    action := alertAction ν.beta }

/-- Sort key of `sorted(alerts, key=lambda x: x['timestamp'], reverse=True)`:
`a` precedes `b` when `a`'s timestamp is at least `b`'s. -/
def newestFirst (a b : Alert) : Prop :=
  b.timestamp ≤ a.timestamp

instance : DecidableRel newestFirst :=
  fun a b => inferInstanceAs (Decidable (b.timestamp ≤ a.timestamp))

instance : IsTotal Alert newestFirst :=
  ⟨fun a b => le_total b.timestamp a.timestamp⟩

instance : IsTrans Alert newestFirst :=
  ⟨fun _ _ _ h1 h2 => le_trans h2 h1⟩

/-- `PharmaDataGenerator.generate_contamination_alerts`
(`synthetic_data.py` lines 214-253): build `num_alerts` records, then return
them sorted newest-first by timestamp (Python's `sorted` with `reverse=True`
is stable, as is `List.insertionSort`; for ISO timestamps of a fixed format
string comparison agrees with chronological comparison). -/
def generate_contamination_alerts (now : ℚ) (num_alerts : ℕ)
    (noise : ℕ → AlertNoise) : List Alert :=
  List.insertionSort newestFirst
    ((List.range num_alerts).map (fun i => mkAlert now i (noise i)))

/-- The `health_score` column of `silver_equipment_health`
(`pharma_manufacturing_dlt.py` lines 173-190):
`100 - vibration_level * 10 - runtime_hours / 500`, with no clamping. -/
def silver_equipment_health_score (vibration_level runtime_hours : ℚ) : ℚ :=
  100 - vibration_level * 10 - runtime_hours / 500

/-- The `status` column of `silver_equipment_health`: `health_score >= 85`
Operational, else `>= 70` Warning, else Critical. -/
def silver_equipment_status (health_score : ℚ) : String :=
  if health_score ≥ 85 then "Operational"
  else if health_score ≥ 70 then "Warning"
  else "Critical"

/-- `base_health` of `PharmaDataGenerator.generate_equipment_health`
(`synthetic_data.py` lines 183-186): `100 - (days_since_maintenance/180)*40`. -/
def equipment_base_health (days_since_maintenance : ℚ) : ℚ :=
  100 - days_since_maintenance / 180 * 40

/-- `health_score` of `generate_equipment_health`:
`max(60, min(100, base_health + N(0, 5)))` with the N(0,5) draw `ε`. -/
def equipment_health_score (days_since_maintenance ε : ℚ) : ℚ :=
  max 60 (min 100 (equipment_base_health days_since_maintenance + ε))

/-- Status ladder of `generate_equipment_health`
(`synthetic_data.py` lines 188-194), same thresholds as the DLT column. -/
def equipment_status (health_score : ℚ) : String :=
  if health_score ≥ 85 then "Operational"
  else if health_score ≥ 70 then "Warning"
  else "Critical"

/-- A validated sensor row of `silver_bioreactor_sensors`
(`pharma_manufacturing_dlt.py` lines 122-145); only the columns the
compliance claims read. -/
structure SilverRow where
  temperature : ℚ
  ph : ℚ
  dissolved_oxygen : ℚ
deriving DecidableEq, Repr

/-- The `within_spec_temp` column: `36.9 <= temperature <= 37.1`. -/
def within_spec_temp (r : SilverRow) : Bool :=
  if 369/10 ≤ r.temperature ∧ r.temperature ≤ 371/10 then true else false

/-- The `within_spec_ph` column: `6.95 <= ph <= 7.05`. -/
def within_spec_ph (r : SilverRow) : Bool :=
  if 139/20 ≤ r.ph ∧ r.ph ≤ 141/20 then true else false

/-- The `within_spec_do` column: `40 <= dissolved_oxygen <= 50`. -/
def within_spec_do (r : SilverRow) : Bool :=
  if 40 ≤ r.dissolved_oxygen ∧ r.dissolved_oxygen ≤ 50 then true else false

/-- The `all_specs_met` column: conjunction of the three in-spec flags. -/
def all_specs_met (r : SilverRow) : Bool :=
  within_spec_temp r && within_spec_ph r && within_spec_do r

/-- One output row of `gold_bioreactor_hourly_metrics`
(`pharma_manufacturing_dlt.py` lines 200-234); only the columns the
compliance claims read (the mean/stddev columns are irrelevant to every
claim and omitted). -/
structure ComplianceWindow where
  reading_count : ℕ
  in_spec_count : ℕ
  spec_compliance_percent : ℚ
deriving DecidableEq, Repr

/-- The aggregation of `gold_bioreactor_hourly_metrics` for the rows of one
(window, bioreactor) group: `count(*)`, `sum(when(all_specs_met,1))`, and
`in_spec_count / reading_count * 100`.  Spark's `groupBy` only materialises
groups whose key occurs in the data, so an empty group is never emitted:
modelled by returning `none` on the empty list. -/
def gold_hourly_window (rows : List SilverRow) : Option ComplianceWindow :=
  if rows.isEmpty then none
  else some
    { reading_count := rows.length,
      in_spec_count := rows.countP (fun r => all_specs_met r),
      spec_compliance_percent :=
        ((rows.countP (fun r => all_specs_met r) : ℚ) / (rows.length : ℚ)) * 100 }

/-- A concrete fully-in-spec silver row, used as a witness input. -/
def c8row : SilverRow :=
  { temperature := 37, ph := 7, dissolved_oxygen := 45 }

/-- The window aggregated from `[c8row]`. -/
def c8winVal : ComplianceWindow :=
  { reading_count := 1, in_spec_count := 1, spec_compliance_percent := 100 }

/-- The single sample of a 1-hour, 60-minute-interval run at `now = 0` with
all-zero draws; witness input for the range theorem. -/
def c9sample : SensorSample :=
  genSample "BR-01" 60 0 1 false 0 (zeroNoise 0)

/-- Sample index 1 of a 4000-hour run with a 120000-minute interval at
`now = 0` with all-zero draws; its elapsed time is 2000 h, deep in the death
phase, where the unclamped growth factor is -111/5 and the dissolved-oxygen
formula yields 156. -/
def c9badSample : SensorSample :=
  genSample "BR-01" 120000 0 2 false 1 (zeroNoise 1)

/-! Helper lemmas about the rounding model. -/

/-- The half-even rounding of `x` is at least `⌊x⌋`. -/
theorem floor_le_roundHalfEven (x : ℚ) : Int.floor x ≤ roundHalfEven x := by
  unfold roundHalfEven
  dsimp only
  split_ifs <;> omega

/-- The half-even rounding of `x` is at most `⌈x⌉`. -/
theorem roundHalfEven_le_ceil (x : ℚ) : roundHalfEven x ≤ Int.ceil x := by
  unfold roundHalfEven
  dsimp only
  split_ifs with h1 h2 h3
  · exact Int.floor_le_ceil x
  · have hx : (Int.floor x : ℚ) < x := by linarith
    have : Int.floor x < Int.ceil x := Int.lt_ceil.mpr hx
    omega
  · exact Int.floor_le_ceil x
  · have hx : (Int.floor x : ℚ) < x := by
      push_neg at h1
      have hlt := Int.sub_one_lt_floor x
      by_contra hc
      push_neg at hc
      have : x = (Int.floor x : ℚ) := le_antisymm hc (Int.floor_le x)
      rw [this] at h1
      simp at h1
      linarith
    have : Int.floor x < Int.ceil x := Int.lt_ceil.mpr hx
    omega

/-- An integer lower bound survives `roundTo`. -/
theorem intCast_le_roundTo (d : ℕ) (x : ℚ) (n : ℤ) (h : (n : ℚ) ≤ x) :
    (n : ℚ) ≤ roundTo d x := by
  unfold roundTo
  have hp : (0 : ℚ) < 10 ^ d := by positivity
  rw [le_div_iff hp]
  have h1 : (n : ℚ) * 10 ^ d ≤ x * 10 ^ d := by
    exact mul_le_mul_of_nonneg_right h (le_of_lt hp)
  have h2 : n * (10 : ℤ) ^ d ≤ Int.floor (x * 10 ^ d) := by
    apply Int.le_floor.mpr
    push_cast
    exact h1
  have h3 := floor_le_roundHalfEven (x * 10 ^ d)
  have h4 : n * (10 : ℤ) ^ d ≤ roundHalfEven (x * 10 ^ d) := le_trans h2 h3
  calc (n : ℚ) * 10 ^ d = ((n * (10 : ℤ) ^ d : ℤ) : ℚ) := by push_cast; ring
    _ ≤ ((roundHalfEven (x * 10 ^ d) : ℤ) : ℚ) := by exact_mod_cast h4

/-- An integer upper bound survives `roundTo`. -/
theorem roundTo_le_intCast (d : ℕ) (x : ℚ) (n : ℤ) (h : x ≤ (n : ℚ)) :
    roundTo d x ≤ (n : ℚ) := by
  unfold roundTo
  have hp : (0 : ℚ) < 10 ^ d := by positivity
  rw [div_le_iff hp]
  have h1 : x * 10 ^ d ≤ (n : ℚ) * 10 ^ d := by
    exact mul_le_mul_of_nonneg_right h (le_of_lt hp)
  have h2 : Int.ceil (x * 10 ^ d) ≤ n * (10 : ℤ) ^ d := by
    apply Int.ceil_le.mpr
    push_cast
    exact h1
  have h3 := roundHalfEven_le_ceil (x * 10 ^ d)
  have h4 : roundHalfEven (x * 10 ^ d) ≤ n * (10 : ℤ) ^ d := le_trans h3 h2
  calc ((roundHalfEven (x * 10 ^ d) : ℤ) : ℚ)
      ≤ ((n * (10 : ℤ) ^ d : ℤ) : ℚ) := by exact_mod_cast h4
    _ = (n : ℚ) * 10 ^ d := by push_cast; ring

/-- `truncQ` of a nonnegative rational is nonnegative. -/
theorem truncQ_nonneg (x : ℚ) (h : 0 ≤ x) : 0 ≤ truncQ x := by
  unfold truncQ
  rw [if_pos h]
  exact Int.floor_nonneg.mpr h

/-- The growth factor stays in `[0, 1]` for elapsed times up to 224 hours
(beyond 224 h the unclamped death decay goes negative). -/
theorem growthFactor_mem_unit (t : ℚ) (h0 : 0 ≤ t) (h1 : t ≤ 224) :
    0 ≤ growthFactor t ∧ growthFactor t ≤ 1 := by
  unfold growthFactor
  split_ifs with h2 h3 h4
  · norm_num
  · constructor
    · apply div_nonneg _ (by norm_num)
      linarith
    · rw [div_le_one (by norm_num)]
      linarith
  · norm_num
  · push_neg at h2 h3 h4
    have key : (t - 144) / 24 * (3/10) = (t - 144) * (1/80) := by ring
    rw [key]
    constructor <;> nlinarith

/-! Claim theorems. -/

/-- Claim C2, counterexample: the growth factor is 0.1 throughout the lag
phase but restarts at 0 at the start of the exponential phase, so it is not
monotone over `[0, T_stat)`: at `t1 = 0 ≤ t2 = 24 < 144` it strictly
decreases. -/
theorem growthFactor_not_monotone_at_lag_boundary :
    growthFactor 0 = 1/10 ∧ growthFactor 24 = 0 ∧
      ¬ growthFactor 0 ≤ growthFactor 24 ∧
      (0 : ℚ) ≤ 24 ∧ (24 : ℚ) < 144 := by
  refine ⟨?_, ?_, ?_, by norm_num, by norm_num⟩ <;> norm_num [growthFactor]

/-- Claim C2, amended: the growth factor is monotonically non-decreasing from
the start of the exponential phase through the stationary phase, i.e. for all
`T_lag ≤ t1 ≤ t2 < T_stat` (24 ≤ t1 ≤ t2 < 144); across the lag→exponential
boundary it drops from 0.1 to 0, so monotonicity from 0 fails. -/
theorem growthFactor_mono_exp_to_stat (t1 t2 : ℚ) (h24 : 24 ≤ t1)
    (h12 : t1 ≤ t2) (h144 : t2 < 144) :
    growthFactor t1 ≤ growthFactor t2 := by
  unfold growthFactor
  split_ifs with a1 a2 a3 a4 a5 a6 a7 a8 a9 <;> linarith

/-- Claim C2, witness: the amended monotonicity at `t1 = 30`, `t2 = 100`. -/
theorem growthFactor_mono_exp_to_stat_witness :
    ((24 : ℚ) ≤ 30 ∧ (30 : ℚ) ≤ 100 ∧ (100 : ℚ) < 144) ∧
      growthFactor 30 ≤ growthFactor 100 :=
  ⟨⟨by norm_num, by norm_num, by norm_num⟩,
    growthFactor_mono_exp_to_stat 30 100 (by norm_num) (by norm_num)
      (by norm_num)⟩

/-- Claim C3, counterexample: at `elapsed_hours = 240` the code's growth
factor is `-1/5`, not the claimed `max(0, 1 - 0.0125 × (240 - 144)) = 0` —
the death-phase decay is not clamped at 0 and goes negative. -/
theorem growthFactor_death_not_clamped :
    growthFactor 240 = -(1/5) ∧
      max (0 : ℚ) (1 - ((240 - 144) / 24) * (3/10)) = 0 ∧
      growthFactor 240 ≠ max (0 : ℚ) (1 - ((240 - 144) / 24) * (3/10)) ∧
      growthFactor 240 < 0 := by
  refine ⟨?_, ?_, ?_, ?_⟩ <;> norm_num [growthFactor]

/-- Claim C3, amended: for every `elapsed_hours ≥ T_stat = 144` the phase is
death and the growth factor equals `1 - ((elapsed_hours - 144)/24) × 0.3`
with no clamping (decay rate 0.0125/h); the growth factor is nonnegative
only for elapsed times up to 224 h. -/
theorem death_phase_formula (t : ℚ) :
    (144 ≤ t →
      classifyPhase t = Phase.death ∧
        growthFactor t = 1 - ((t - 144) / 24) * (3/10)) ∧
    (0 ≤ t → t ≤ 224 → 0 ≤ growthFactor t) := by
  constructor
  · intro h
    constructor
    · unfold classifyPhase
      split_ifs with a1 a2 a3 <;> first | rfl | linarith
    · unfold growthFactor
      split_ifs with a1 a2 a3 <;> first | rfl | linarith
  · intro h0 h1
    exact (growthFactor_mem_unit t h0 h1).1

/-- Claim C3, witness: the amended claim at `t = 150`. -/
theorem death_phase_formula_witness :
    ((144 : ℚ) ≤ 150 ∧ classifyPhase 150 = Phase.death ∧
        growthFactor 150 = 37/40) ∧
      ((0 : ℚ) ≤ 150 ∧ (150 : ℚ) ≤ 224 ∧ 0 ≤ growthFactor 150) := by
  have h := (death_phase_formula 150).1 (by norm_num)
  have h2 := (death_phase_formula 150).2 (by norm_num) (by norm_num)
  refine ⟨⟨by norm_num, h.1, ?_⟩, by norm_num, by norm_num, h2⟩
  rw [h.2]
  norm_num

/-- Claim C4, counterexample: for a window with `stddev(ph) = 0`,
`stddev(temperature) = 0`, `mean(DO) = 35` the full risk score is `0.3`,
which the claimed bucketing (`0.2 < risk ≤ 0.5`) would label Medium, but the
code labels it Low: the bucket is computed from
`2×stddev(ph) + 5×stddev(temperature)` alone, without the DO term. -/
theorem risk_level_ignores_do_term :
    contamination_risk_score 0 0 35 = 3/10 ∧
      (1/5 : ℚ) < 3/10 ∧ (3/10 : ℚ) ≤ 1/2 ∧
      risk_level 0 0 = "Low" ∧ risk_level 0 0 ≠ "Medium" := by
  have hl : risk_level 0 0 = "Low" := by norm_num [risk_level]
  refine ⟨?_, by norm_num, by norm_num, hl, ?_⟩
  · norm_num [contamination_risk_score]
  · rw [hl]
    decide

/-- Claim C4, amended: the contamination risk score equals
`2×stddev(ph) + 5×stddev(temperature) + (0.3 if mean(DO) < 40 else 0.05)`,
but the risk-level bucket is determined by the instability part
`2×stddev(ph) + 5×stddev(temperature)` alone (the DO term is excluded from
bucketing): High iff that part exceeds 0.5, Medium iff it exceeds 0.2 without
exceeding 0.5, else Low.  The spec's scenario window (stddev(ph)=0.3,
stddev(temperature)=0.2, mean(DO)=35) still scores 1.9 and buckets High. -/
theorem contamination_risk_characterisation (sp st ado : ℚ) :
    contamination_risk_score sp st ado = spec_contamination_risk sp st ado ∧
      (risk_level sp st = "High" ↔ 1/2 < sp * 2 + st * 5) ∧
      (risk_level sp st = "Medium" ↔
        1/5 < sp * 2 + st * 5 ∧ sp * 2 + st * 5 ≤ 1/2) ∧
      (risk_level sp st = "Low" ↔ sp * 2 + st * 5 ≤ 1/5) ∧
      contamination_risk_score (3/10) (1/5) 35 = 19/10 ∧
      risk_level (3/10) (1/5) = "High" := by
  refine ⟨?_, ?_, ?_, ?_, ?_, ?_⟩
  · unfold contamination_risk_score spec_contamination_risk
    split_ifs <;> ring
  · unfold risk_level
    split_ifs with h1 h2
    · exact iff_of_true rfl h1
    · exact iff_of_false (by decide) h1
    · exact iff_of_false (by decide) h1
  · unfold risk_level
    split_ifs with h1 h2
    · exact iff_of_false (by decide) (fun hc => absurd h1 (not_lt.mpr hc.2))
    · exact iff_of_true rfl ⟨h2, le_of_not_lt h1⟩
    · exact iff_of_false (by decide) (fun hc => absurd hc.1 h2)
  · unfold risk_level
    split_ifs with h1 h2
    · exact iff_of_false (by decide)
        (fun hc => absurd h1 (not_lt.mpr (le_trans hc (by norm_num))))
    · exact iff_of_false (by decide) (fun hc => absurd h2 (not_lt.mpr hc))
    · push_neg at h2
      exact iff_of_true rfl h2
  · norm_num [contamination_risk_score]
  · norm_num [risk_level]

/-- Claim C5, counterexample: an alert whose sampled risk score is 0.6 — above
the claimed High threshold of 0.5 — is labelled Medium by the generator,
whose thresholds are 0.3 and 0.7, not the §4.4 rule (0.2 / 0.5). -/
theorem alert_status_not_gold_buckets :
    (mkAlert 0 0 { beta := 3/5, hoursAgo := 1 }).risk_score = 3/5 ∧
      (1/2 : ℚ) < 3/5 ∧
      (mkAlert 0 0 { beta := 3/5, hoursAgo := 1 }).status = "Medium" ∧
      (mkAlert 0 0 { beta := 3/5, hoursAgo := 1 }).status ≠ "High" := by
  have hs : (mkAlert 0 0 { beta := 3/5, hoursAgo := 1 }).status = "Medium" := by
    norm_num [mkAlert, alertStatus]
  refine ⟨?_, by norm_num, hs, ?_⟩
  · norm_num [mkAlert, roundTo, roundHalfEven]
  · rw [hs]
    decide

/-- Claim C5, amended: every contamination-alert record derives its status
from its sampled risk score by the generator's own thresholds — Low iff
risk < 0.3, Medium iff 0.3 ≤ risk < 0.7, High iff risk ≥ 0.7 — not by the
§4.4 bucket rule (0.2 / 0.5). -/
theorem alert_status_characterisation (r now : ℚ) (i : ℕ) (ν : AlertNoise) :
    (alertStatus r = "Low" ↔ r < 3/10) ∧
      (alertStatus r = "Medium" ↔ 3/10 ≤ r ∧ r < 7/10) ∧
      (alertStatus r = "High" ↔ 7/10 ≤ r) ∧
      (mkAlert now i ν).status = alertStatus ν.beta ∧
      (mkAlert now i ν).risk_score = roundTo 2 ν.beta := by
  refine ⟨?_, ?_, ?_, rfl, rfl⟩
  · unfold alertStatus
    split_ifs with h1 h2
    · exact iff_of_true rfl h1
    · exact iff_of_false (by decide) h1
    · exact iff_of_false (by decide) h1
  · unfold alertStatus
    split_ifs with h1 h2
    · exact iff_of_false (by decide) (fun hc => absurd h1 (not_lt.mpr hc.1))
    · exact iff_of_true rfl ⟨le_of_not_lt h1, h2⟩
    · exact iff_of_false (by decide) (fun hc => absurd hc.2 h2)
  · unfold alertStatus
    split_ifs with h1 h2
    · exact iff_of_false (by decide)
        (fun hc => absurd h1 (not_lt.mpr (le_trans (by norm_num) hc)))
    · exact iff_of_false (by decide) (fun hc => absurd h2 (not_lt.mpr hc))
    · exact iff_of_true rfl (le_of_not_lt h2)

/-- Claim C6: both equipment health scores stay in `[0, 100]` — the DLT
formula `100 - 10×vibration - runtime/500` over the vibration and runtime
ranges its bronze source emits (`rand()*5` and `rand()*1000`), and the
generator's maintenance-age score, clamped by `max(60, min(100, ·))` — and
both status columns follow the bucket rule Operational iff health ≥ 85,
Warning iff 70 ≤ health < 85, Critical iff health < 70. -/
theorem equipment_health_bounds_and_buckets (v rt h days ε : ℚ) :
    (0 ≤ v → v ≤ 5 → 0 ≤ rt → rt ≤ 1000 →
      0 ≤ silver_equipment_health_score v rt ∧
        silver_equipment_health_score v rt ≤ 100) ∧
    ((silver_equipment_status h = "Operational" ↔ 85 ≤ h) ∧
      (silver_equipment_status h = "Warning" ↔ 70 ≤ h ∧ h < 85) ∧
      (silver_equipment_status h = "Critical" ↔ h < 70)) ∧
    (0 ≤ equipment_health_score days ε ∧
      equipment_health_score days ε ≤ 100 ∧
      0 ≤ roundTo 1 (equipment_health_score days ε) ∧
      roundTo 1 (equipment_health_score days ε) ≤ 100) ∧
    ((equipment_status h = "Operational" ↔ 85 ≤ h) ∧
      (equipment_status h = "Warning" ↔ 70 ≤ h ∧ h < 85) ∧
      (equipment_status h = "Critical" ↔ h < 70)) := by
  have hbuckets : ∀ g : ℚ → String,
      (∀ x, g x = if x ≥ 85 then "Operational"
        else if x ≥ 70 then "Warning" else "Critical") →
      (g h = "Operational" ↔ 85 ≤ h) ∧
        (g h = "Warning" ↔ 70 ≤ h ∧ h < 85) ∧
        (g h = "Critical" ↔ h < 70) := by
    intro g hg
    rw [hg h]
    refine ⟨?_, ?_, ?_⟩ <;> split_ifs with h1 h2
    · exact iff_of_true rfl h1
    · exact iff_of_false (by decide) h1
    · exact iff_of_false (by decide) h1
    · exact iff_of_false (by decide) (fun hc => absurd h1 (not_le.mpr hc.2))
    · exact iff_of_true rfl ⟨h2, lt_of_not_le h1⟩
    · exact iff_of_false (by decide) (fun hc => absurd hc.1 h2)
    · exact iff_of_false (by decide)
        (fun hc => absurd h1 (not_le.mpr (lt_of_lt_of_le hc (by norm_num))))
    · exact iff_of_false (by decide) (fun hc => absurd h2 (not_le.mpr hc))
    · push_neg at h2
      exact iff_of_true rfl h2
  have hlo : 0 ≤ equipment_health_score days ε := by
    unfold equipment_health_score
    have : (60 : ℚ) ≤ max 60 (min 100 (equipment_base_health days + ε)) :=
      le_max_left _ _
    linarith
  have hhi : equipment_health_score days ε ≤ 100 := by
    unfold equipment_health_score
    exact max_le (by norm_num) (min_le_left _ _)
  refine ⟨?_, hbuckets silver_equipment_status (fun _ => rfl), ⟨hlo, hhi, ?_, ?_⟩,
    hbuckets equipment_status (fun _ => rfl)⟩
  · intro hv0 hv5 hr0 hr1000
    unfold silver_equipment_health_score
    constructor <;> linarith
  · exact_mod_cast intCast_le_roundTo 1 _ 0 hlo
  · exact_mod_cast roundTo_le_intCast 1 _ 100 hhi

/-- Claim C6, witness: the bounds and buckets at vibration 1, runtime 100,
health 90, maintenance age 30 days with a zero noise draw. -/
theorem equipment_health_bounds_and_buckets_witness :
    ((0 : ℚ) ≤ 1 ∧ (1 : ℚ) ≤ 5 ∧ (0 : ℚ) ≤ 100 ∧ (100 : ℚ) ≤ 1000) ∧
      0 ≤ silver_equipment_health_score 1 100 ∧
      silver_equipment_health_score 1 100 ≤ 100 ∧
      silver_equipment_status 90 = "Operational" ∧
      0 ≤ equipment_health_score 30 0 := by
  have h := equipment_health_bounds_and_buckets 1 100 90 30 0
  have h1 := h.1 (by norm_num) (by norm_num) (by norm_num) (by norm_num)
  exact ⟨⟨by norm_num, by norm_num, by norm_num, by norm_num⟩, h1.1, h1.2,
    h.2.1.1.mpr (by norm_num), h.2.2.1.1⟩

/-- Claim C7, counterexample: a request with non-positive duration returns an
ordinary (empty) result, not an `InvalidRequest` error — `hours = 0` gives
`num_points = 0` and an empty series, a negative interval likewise; only
`interval = 0` fails, and it fails with `ZeroDivisionError`, an error kind
the spec's taxonomy does not contain. -/
theorem nonpositive_request_not_rejected :
    run_generate_bioreactor "BR-01" 0 5 false 0 zeroNoise = Except.ok [] ∧
      run_generate_bioreactor "BR-01" 168 (-5) false 0 zeroNoise =
        Except.ok [] ∧
      run_generate_bioreactor "BR-01" 168 0 false 0 zeroNoise =
        Except.error "ZeroDivisionError" ∧
      "ZeroDivisionError" ≠ "InvalidRequest" := by
  refine ⟨?_, ?_, ?_, by decide⟩
  · simp [run_generate_bioreactor, generate_bioreactor_timeseries]
  · simp only [run_generate_bioreactor, generate_bioreactor_timeseries]
    rw [if_neg (by decide)]
    rw [show (Int.fdiv (168 * 60) (-5)).toNat = 0 from by decide]
    rfl
  · simp [run_generate_bioreactor]

/-- Claim C7, amended: the generator performs no request validation.  The
call fails iff the sample interval is exactly zero — with a division-by-zero
error, not an `InvalidRequest` — and every other request, including
non-positive durations and negative intervals, returns a result: the series
of `(hours × 60) floordiv interval` samples (empty whenever that count is
non-positive). -/
theorem run_generate_total_except_zero_interval (id : String)
    (hours interval : ℤ) (anoms : Bool) (now : ℚ) (noise : ℕ → StepNoise) :
    (run_generate_bioreactor id hours interval anoms now noise =
        Except.error "ZeroDivisionError" ↔ interval = 0) ∧
      (interval ≠ 0 →
        run_generate_bioreactor id hours interval anoms now noise =
          Except.ok
            (generate_bioreactor_timeseries id hours interval anoms now
              noise)) ∧
      (generate_bioreactor_timeseries id hours interval anoms now
          noise).length = (Int.fdiv (hours * 60) interval).toNat := by
  refine ⟨?_, ?_, ?_⟩
  · unfold run_generate_bioreactor
    split_ifs with h
    · exact iff_of_true rfl h
    · exact iff_of_false (by simp) h
  · intro h
    unfold run_generate_bioreactor
    rw [if_neg h]
  · unfold generate_bioreactor_timeseries
    rw [List.length_map, List.length_range]

/-- Claim C7, witness: the amended claim at a 1-hour, 60-minute-interval
request, which returns one sample. -/
theorem run_generate_total_witness :
    ((60 : ℤ) ≠ 0 ∧
        run_generate_bioreactor "BR-01" 1 60 false 0 zeroNoise =
          Except.ok
            (generate_bioreactor_timeseries "BR-01" 1 60 false 0 zeroNoise)) ∧
      (generate_bioreactor_timeseries "BR-01" 1 60 false 0 zeroNoise).length
        = 1 := by
  have h := run_generate_total_except_zero_interval "BR-01" 1 60 false 0
    zeroNoise
  refine ⟨⟨by decide, h.2.1 (by decide)⟩, ?_⟩
  rw [h.2.2]
  decide

/-- Claim C8: rows of `gold_bioreactor_hourly_metrics`.  A window is emitted
iff its group is nonempty (so `reading_count ≥ 1` always),
`spec_compliance_percent = in_spec_count / reading_count × 100`, and
`in_spec_count` counts exactly the rows whose temperature, pH and dissolved
oxygen all lie in the spec bands `[36.9, 37.1]`, `[6.95, 7.05]`, `[40, 50]`. -/
theorem gold_hourly_window_spec (rows : List SilverRow) :
    (gold_hourly_window rows = none ↔ rows = []) ∧
      ∀ w, gold_hourly_window rows = some w →
        1 ≤ w.reading_count ∧
          w.spec_compliance_percent =
            (w.in_spec_count : ℚ) / (w.reading_count : ℚ) * 100 ∧
          w.in_spec_count =
            (rows.filter (fun r => all_specs_met r)).length ∧
          ∀ r : SilverRow, all_specs_met r = true ↔
            369/10 ≤ r.temperature ∧ r.temperature ≤ 371/10 ∧
              139/20 ≤ r.ph ∧ r.ph ≤ 141/20 ∧
              40 ≤ r.dissolved_oxygen ∧ r.dissolved_oxygen ≤ 50 := by
  constructor
  · unfold gold_hourly_window
    split_ifs with h
    · exact iff_of_true rfl (List.isEmpty_iff.mp h)
    · refine iff_of_false (by simp) (fun hc => h ?_)
      rw [hc]
      rfl
  · intro w hw
    unfold gold_hourly_window at hw
    by_cases h : rows.isEmpty
    · rw [if_pos h] at hw
      exact absurd hw (by simp)
    · rw [if_neg h] at hw
      have hw' := Option.some.inj hw
      subst hw'
      have hne : rows ≠ [] := fun hc => h (by rw [hc]; rfl)
      refine ⟨?_, rfl, ?_, ?_⟩
      · exact List.length_pos.mpr hne
      · exact List.countP_eq_length_filter _ _
      · intro r
        have hbool : ∀ (P : Prop) (inst : Decidable P),
            ((if P then true else false) = true ↔ P) := by
          intro P inst
          split_ifs with hp <;> simp [hp]
        unfold all_specs_met within_spec_temp within_spec_ph within_spec_do
        rw [Bool.and_eq_true, Bool.and_eq_true, hbool, hbool, hbool]
        tauto

/-- Claim C8, witness: the single-row group `[c8row]` (a fully in-spec row)
is emitted as the window `c8winVal` with one reading, one in-spec reading and
100% compliance. -/
theorem gold_hourly_window_spec_witness :
    gold_hourly_window [c8row] = some c8winVal ∧
      1 ≤ c8winVal.reading_count ∧
      c8winVal.spec_compliance_percent =
        (c8winVal.in_spec_count : ℚ) / (c8winVal.reading_count : ℚ) * 100 ∧
      c8winVal.in_spec_count =
        ([c8row].filter (fun r => all_specs_met r)).length ∧
      (all_specs_met c8row = true ↔
        369/10 ≤ c8row.temperature ∧ c8row.temperature ≤ 371/10 ∧
          139/20 ≤ c8row.ph ∧ c8row.ph ≤ 141/20 ∧
          40 ≤ c8row.dissolved_oxygen ∧ c8row.dissolved_oxygen ≤ 50) := by
  have heq : gold_hourly_window [c8row] = some c8winVal := by
    norm_num [gold_hourly_window, c8row, c8winVal, all_specs_met,
      within_spec_temp, within_spec_ph, within_spec_do, List.countP_cons,
      List.countP_nil]
  have h := (gold_hourly_window_spec [c8row]).2 c8winVal heq
  exact ⟨heq, h.1, h.2.1, h.2.2.1, h.2.2.2 c8row⟩

/-- Claim C10: `generate_contamination_alerts` returns exactly `num_alerts`
records, sorted by timestamp in non-increasing (newest-first) order. -/
theorem alerts_count_and_order (now : ℚ) (n : ℕ) (ν : ℕ → AlertNoise) :
    (generate_contamination_alerts now n ν).length = n ∧
      List.Sorted newestFirst (generate_contamination_alerts now n ν) := by
  constructor
  · unfold generate_contamination_alerts
    rw [List.length_insertionSort, List.length_map, List.length_range]
  · exact List.sorted_insertionSort newestFirst _

/-- Claim C1, counterexample: two calls with the identical request (same
bioreactor, duration, interval, anomaly flag, and the same seed-derived draw
stream) but made at different wall-clock instants (`datetime.now()` = 0
resp. 1) return different sequences: the timestamps differ.  The generator
derives timestamps from the wall clock, not from the request. -/
theorem generate_differs_across_clock :
    generate_bioreactor_timeseries "BR-01" 1 60 false 0 zeroNoise ≠
      generate_bioreactor_timeseries "BR-01" 1 60 false 1 zeroNoise := by
  intro h
  simp only [generate_bioreactor_timeseries] at h
  rw [show Int.fdiv ((1 : ℤ) * 60) 60 = 1 from by decide] at h
  rw [show ((1 : ℤ)).toNat = 1 from by decide] at h
  rw [show List.range 1 = [0] from by decide] at h
  simp only [List.map_cons, List.map_nil, List.cons.injEq, and_true] at h
  have h3 := congrArg SensorSample.timestamp h
  simp only [genSample] at h3
  norm_num at h3

/-- Claim C1, amended: the output of `generate_bioreactor_timeseries` is a
pure function of the request, the pseudo-random draw stream, and the wall
clock at the call.  With the draw stream fixed (same seed, freshly seeded
generator), two calls agree field-for-field on every field except
`timestamp` regardless of when they are made; the full sequences (timestamps
included) are identical iff the two calls observe the same wall-clock
instant.  (In the code as written, a repeated call additionally advances the
process-global RNG state, so byte-identical reproduction requires
re-seeding.) -/
theorem generate_pure_in_request_modulo_clock (id : String)
    (hours interval : ℤ) (anoms : Bool) (noise : ℕ → StepNoise)
    (now1 now2 : ℚ) :
    (generate_bioreactor_timeseries id hours interval anoms now1 noise).map
        eraseTs =
      (generate_bioreactor_timeseries id hours interval anoms now2
          noise).map eraseTs ∧
    (0 < Int.fdiv (hours * 60) interval →
      (generate_bioreactor_timeseries id hours interval anoms now1 noise =
          generate_bioreactor_timeseries id hours interval anoms now2 noise ↔
        now1 = now2)) := by
  constructor
  · unfold generate_bioreactor_timeseries
    rw [List.map_map, List.map_map]
    rfl
  · intro hpos
    constructor
    · intro heq
      have hlt : 0 < (Int.fdiv (hours * 60) interval).toNat := by omega
      have h1 := congrArg (fun l => l[0]?) heq
      simp only [generate_bioreactor_timeseries] at h1
      rw [List.getElem?_map, List.getElem?_map, List.getElem?_range hlt]
        at h1
      simp only [Option.map_some'] at h1
      have h2 := congrArg SensorSample.timestamp (Option.some.inj h1)
      simp only [genSample] at h2
      linarith
    · intro heq
      rw [heq]

/-- Claim C1, witness: the amended claim on a one-sample request, at clocks
0 and 1: timestamp-erased outputs coincide, full outputs coincide iff the
clocks do. -/
theorem generate_pure_modulo_clock_witness :
    (0 : ℤ) < Int.fdiv (1 * 60) 60 ∧
      (generate_bioreactor_timeseries "BR-01" 1 60 false 0 zeroNoise).map
          eraseTs =
        (generate_bioreactor_timeseries "BR-01" 1 60 false 1 zeroNoise).map
          eraseTs ∧
      ((generate_bioreactor_timeseries "BR-01" 1 60 false 0 zeroNoise =
          generate_bioreactor_timeseries "BR-01" 1 60 false 1 zeroNoise) ↔
        (0 : ℚ) = 1) :=
  ⟨by decide,
    (generate_pure_in_request_modulo_clock "BR-01" 1 60 false zeroNoise
      0 1).1,
    (generate_pure_in_request_modulo_clock "BR-01" 1 60 false zeroNoise
      0 1).2 (by decide)⟩

/-- The draw record with every draw zero satisfies the draw bounds. -/
theorem zeroStep_ok : NoiseOK zeroStep := by
  refine ⟨by norm_num [zeroStep], by norm_num [zeroStep],
    by norm_num [zeroStep], le_refl 0, fun _ => by norm_num [zeroStep],
    fun hc => absurd (by norm_num [zeroStep] : zeroStep.branch < 1/2) hc⟩

/-- Per-sample range bounds: if the elapsed time of step `i` lies in
`[0, 224]` hours and the step's draws satisfy `NoiseOK`, the sample's fields
satisfy the §8 ranges. -/
theorem genSample_in_ranges (id : String) (iv : ℤ) (now : ℚ) (n : ℤ)
    (anoms : Bool) (i : ℕ) (ν : StepNoise)
    (ht0 : 0 ≤ (i : ℚ) * (iv : ℚ) / 60)
    (ht1 : (i : ℚ) * (iv : ℚ) / 60 ≤ 224) (hν : NoiseOK ν) :
    30 ≤ (genSample id iv now n anoms i ν).temperature ∧
      (genSample id iv now n anoms i ν).temperature ≤ 42 ∧
      5 ≤ (genSample id iv now n anoms i ν).ph ∧
      (genSample id iv now n anoms i ν).ph ≤ 9 ∧
      0 ≤ (genSample id iv now n anoms i ν).dissolved_oxygen ∧
      (genSample id iv now n anoms i ν).dissolved_oxygen ≤ 100 ∧
      0 ≤ (genSample id iv now n anoms i ν).cell_density ∧
      0 ≤ (genSample id iv now n anoms i ν).viable_cell_count ∧
      0 ≤ (genSample id iv now n anoms i ν).glucose ∧
      0 ≤ (genSample id iv now n anoms i ν).lactate := by
  obtain ⟨hT, hP, hD, hm0, hm1, hm2⟩ := hν
  rw [abs_le] at hT hP hD
  have hgf := growthFactor_mem_unit _ ht0 ht1
  simp only [genSample]
  refine ⟨?_, ?_, ?_, ?_, ?_, ?_, ?_, ?_, ?_, ?_⟩
  · have hv : ((30 : ℤ) : ℚ) ≤
        (if anoms = true ∧ ν.roll < 1/100 ∧ ν.branch < 1/2 then
          37 + ν.eT + ν.mag else 37 + ν.eT) := by
      split_ifs with hc
      · push_cast
        linarith [hT.1, hm0]
      · push_cast
        linarith [hT.1]
    exact_mod_cast intCast_le_roundTo 2 _ 30 hv
  · have hv : (if anoms = true ∧ ν.roll < 1/100 ∧ ν.branch < 1/2 then
        37 + ν.eT + ν.mag else 37 + ν.eT) ≤ ((42 : ℤ) : ℚ) := by
      split_ifs with hc
      · have := hm1 hc.2.2
        push_cast
        linarith [hT.2]
      · push_cast
        linarith [hT.2]
    exact_mod_cast roundTo_le_intCast 2 _ 42 hv
  · have hv : ((5 : ℤ) : ℚ) ≤
        (if anoms = true ∧ ν.roll < 1/100 ∧ ¬ ν.branch < 1/2 then
          7 + ν.eP - growthFactor ((i : ℚ) * (iv : ℚ) / 60) * (1/10) + ν.mag
        else 7 + ν.eP - growthFactor ((i : ℚ) * (iv : ℚ) / 60) * (1/10)) := by
      split_ifs with hc
      · push_cast
        linarith [hP.1, hm0, hgf.2]
      · push_cast
        linarith [hP.1, hgf.2]
    exact_mod_cast intCast_le_roundTo 2 _ 5 hv
  · have hv : (if anoms = true ∧ ν.roll < 1/100 ∧ ¬ ν.branch < 1/2 then
        7 + ν.eP - growthFactor ((i : ℚ) * (iv : ℚ) / 60) * (1/10) + ν.mag
      else 7 + ν.eP - growthFactor ((i : ℚ) * (iv : ℚ) / 60) * (1/10)) ≤
        ((9 : ℤ) : ℚ) := by
      split_ifs with hc
      · have := hm2 hc.2.2
        push_cast
        linarith [hP.2, hgf.1]
      · push_cast
        linarith [hP.2, hgf.1]
    exact_mod_cast roundTo_le_intCast 2 _ 9 hv
  · have hv : ((0 : ℤ) : ℚ) ≤
        45 + ν.eD - growthFactor ((i : ℚ) * (iv : ℚ) / 60) * 5 := by
      push_cast
      linarith [hD.1, hgf.2]
    exact_mod_cast intCast_le_roundTo 1 _ 0 hv
  · have hv : 45 + ν.eD - growthFactor ((i : ℚ) * (iv : ℚ) / 60) * 5 ≤
        ((100 : ℤ) : ℚ) := by
      push_cast
      linarith [hD.2, hgf.1]
    exact_mod_cast roundTo_le_intCast 1 _ 100 hv
  · exact_mod_cast intCast_le_roundTo 2 _ 0 (le_max_left 0 _)
  · exact truncQ_nonneg _ (le_max_left 0 _)
  · exact_mod_cast intCast_le_roundTo 2 _ 0 (le_max_left 0 _)
  · exact_mod_cast intCast_le_roundTo 2 _ 0 (le_max_left 0 _)

/-- Claim C9, counterexample: the range invariant fails for long requests
even with every pseudo-random draw equal to zero.  For a 4000-hour request
sampled every 120000 minutes, the second sample sits at elapsed time 2000 h,
where the unclamped death-phase growth factor is `-111/5`, so the
dissolved-oxygen formula `45 - 5 × growth_factor` yields 156 — outside
`[0, 100]`. -/
theorem generate_sample_do_exceeds_100 :
    c9badSample ∈
        generate_bioreactor_timeseries "BR-01" 4000 120000 false 0
          zeroNoise ∧
      c9badSample.dissolved_oxygen = 156 ∧
      ¬ c9badSample.dissolved_oxygen ≤ 100 := by
  have hdo : c9badSample.dissolved_oxygen = 156 := by
    norm_num [c9badSample, genSample, zeroNoise, zeroStep, growthFactor,
      roundTo, roundHalfEven]
  refine ⟨?_, hdo, by rw [hdo]; norm_num⟩
  simp only [generate_bioreactor_timeseries]
  rw [show Int.fdiv ((4000 : ℤ) * 60) 120000 = 2 from by decide]
  rw [show ((2 : ℤ)).toNat = 2 from by decide]
  simp [List.range_succ, c9badSample]

/-- The four `max(0, ·)`-clamped fields of any sample are nonnegative, for
any arguments and any draws. -/
theorem genSample_clamped_nonneg (id : String) (iv : ℤ) (now : ℚ) (n : ℤ)
    (anoms : Bool) (i : ℕ) (ν : StepNoise) :
    0 ≤ (genSample id iv now n anoms i ν).cell_density ∧
      0 ≤ (genSample id iv now n anoms i ν).viable_cell_count ∧
      0 ≤ (genSample id iv now n anoms i ν).glucose ∧
      0 ≤ (genSample id iv now n anoms i ν).lactate := by
  simp only [genSample]
  refine ⟨?_, ?_, ?_, ?_⟩
  · exact_mod_cast intCast_le_roundTo 2 _ 0 (le_max_left 0 _)
  · exact truncQ_nonneg _ (le_max_left 0 _)
  · exact_mod_cast intCast_le_roundTo 2 _ 0 (le_max_left 0 _)
  · exact_mod_cast intCast_le_roundTo 2 _ 0 (le_max_left 0 _)

/-- Claim C9, amended: the nonnegativity invariants (cell density, viable
cell count, glucose, lactate) hold for every request and every draw stream,
because the code clamps those four with `max(0, ·)` — the first conjunct,
with no hypotheses on the request or the draws.  The bounded ranges —
temperature ∈ [30,42], pH ∈ [5,9], dissolved oxygen ∈ [0,100] — are not
enforced by the code and hold only under bounded draws (`NoiseOK`: each
Gaussian draw within the listed multiples of its σ) and bounded duration
(`hours ≤ 224`, keeping the unclamped growth factor in `[0,1]`); beyond
that, dissolved oxygen exceeds 100 even with all-zero draws. -/
theorem generate_ranges_bounded (id : String) (hours interval : ℤ)
    (anoms : Bool) (now : ℚ) (noise : ℕ → StepNoise) :
    (∀ s ∈ generate_bioreactor_timeseries id hours interval anoms now noise,
        0 ≤ s.cell_density ∧ 0 ≤ s.viable_cell_count ∧
          0 ≤ s.glucose ∧ 0 ≤ s.lactate) ∧
    (0 < interval → hours ≤ 224 → (∀ i, NoiseOK (noise i)) →
      ∀ s ∈ generate_bioreactor_timeseries id hours interval anoms now noise,
        30 ≤ s.temperature ∧ s.temperature ≤ 42 ∧
          5 ≤ s.ph ∧ s.ph ≤ 9 ∧
          0 ≤ s.dissolved_oxygen ∧ s.dissolved_oxygen ≤ 100 ∧
          0 ≤ s.cell_density ∧ 0 ≤ s.viable_cell_count ∧
          0 ≤ s.glucose ∧ 0 ≤ s.lactate) := by
  constructor
  · intro s hs
    simp only [generate_bioreactor_timeseries, List.mem_map, List.mem_range]
      at hs
    obtain ⟨i, hi, rfl⟩ := hs
    exact genSample_clamped_nonneg id interval now _ anoms i (noise i)
  intro hiv hh hns s hs
  simp only [generate_bioreactor_timeseries, List.mem_map, List.mem_range]
    at hs
  obtain ⟨i, hi, rfl⟩ := hs
  set n := Int.fdiv (hours * 60) interval with hn
  have hiZ : (i : ℤ) < n := by omega
  have hnmul : n * interval ≤ hours * 60 := by
    rw [hn, Int.fdiv_eq_ediv _ (le_of_lt hiv)]
    exact Int.ediv_mul_le _ (ne_of_gt hiv)
  have hprod : (i : ℤ) * interval ≤ hours * 60 - interval := by
    have h1 : (i : ℤ) + 1 ≤ n := hiZ
    have h2 : ((i : ℤ) + 1) * interval ≤ n * interval :=
      mul_le_mul_of_nonneg_right h1 (le_of_lt hiv)
    rw [add_mul, one_mul] at h2
    linarith
  have ht1 : (i : ℚ) * (interval : ℚ) / 60 ≤ 224 := by
    rw [div_le_iff (by norm_num : (0 : ℚ) < 60)]
    have hz : ((i : ℤ) * interval : ℤ) ≤ 224 * 60 := by
      have : hours * 60 - interval ≤ 224 * 60 := by linarith
      linarith
    calc (i : ℚ) * (interval : ℚ) = (((i : ℤ) * interval : ℤ) : ℚ) := by
          push_cast
          ring
      _ ≤ ((224 * 60 : ℤ) : ℚ) := by exact_mod_cast hz
      _ = 224 * 60 := by norm_num
  have ht0 : 0 ≤ (i : ℚ) * (interval : ℚ) / 60 := by
    apply div_nonneg _ (by norm_num)
    apply mul_nonneg (Nat.cast_nonneg i)
    exact_mod_cast le_of_lt hiv
  exact genSample_in_ranges id interval now n anoms i (noise i) ht0 ht1
    (hns i)

/-- Claim C9, witness: the unconditional nonnegativity conjunct applied to a
sample of the 4000-hour request (outside the bounded regime), and the
bounded-range conjunct applied to the single sample of a 1-hour,
60-minute-interval request with all-zero draws. -/
theorem generate_ranges_bounded_witness :
    (c9badSample ∈
        generate_bioreactor_timeseries "BR-01" 4000 120000 false 0
          zeroNoise ∧
      0 ≤ c9badSample.cell_density ∧ 0 ≤ c9badSample.viable_cell_count ∧
        0 ≤ c9badSample.glucose ∧ 0 ≤ c9badSample.lactate) ∧
    ((0 : ℤ) < 60 ∧ (1 : ℤ) ≤ 224 ∧ NoiseOK (zeroNoise 0)) ∧
      (30 ≤ c9sample.temperature ∧ c9sample.temperature ≤ 42 ∧
        5 ≤ c9sample.ph ∧ c9sample.ph ≤ 9 ∧
        0 ≤ c9sample.dissolved_oxygen ∧ c9sample.dissolved_oxygen ≤ 100 ∧
        0 ≤ c9sample.cell_density ∧ 0 ≤ c9sample.viable_cell_count ∧
        0 ≤ c9sample.glucose ∧ 0 ≤ c9sample.lactate) := by
  have hmem2 : c9badSample ∈
      generate_bioreactor_timeseries "BR-01" 4000 120000 false 0
        zeroNoise := by
    simp only [generate_bioreactor_timeseries]
    rw [show Int.fdiv ((4000 : ℤ) * 60) 120000 = 2 from by decide]
    rw [show ((2 : ℤ)).toNat = 2 from by decide]
    simp [List.range_succ, c9badSample]
  have hmem : c9sample ∈
      generate_bioreactor_timeseries "BR-01" 1 60 false 0 zeroNoise := by
    simp only [generate_bioreactor_timeseries]
    rw [show Int.fdiv ((1 : ℤ) * 60) 60 = 1 from by decide]
    simp [c9sample]
  have h1 := (generate_ranges_bounded "BR-01" 4000 120000 false 0
    zeroNoise).1 c9badSample hmem2
  have h2 := (generate_ranges_bounded "BR-01" 1 60 false 0 zeroNoise).2
    (by decide) (by decide) (fun _ => zeroStep_ok) c9sample hmem
  exact ⟨⟨hmem2, h1⟩, ⟨by decide, by decide, zeroStep_ok⟩, h2⟩

end PharmaTwin
